import Mathlib

/-!
Verification development for the safe arithmetic-expression evaluator shared by
`cal.py` and `mini-os.py` (the evaluator code is line-for-line identical in the
two files: `eval_expr`, `_eval`, `_to_decimal`, `_to_fraction`,
`auto_detect_mode`, the `OPS` / `_MATH_FUNCS` / `_CONSTS` tables).

The embedding models:
  * Python `Fraction` values as exact rationals `ℚ` (Python keeps them in
    lowest terms, exactly as `ℚ` does);
  * finite Python `Decimal` values as a sign / coefficient / exponent triple
    (`Dec`), with context arithmetic (add, sub, mul, truediv, floordiv, mod,
    integer pow, round-half-even `_fix`) translated from CPython's
    `_pydecimal` reference implementation, parameterised by the precision of
    the context actually used by the operation;
  * Python `float` values symbolically (`PFloat`): a float whose exact
    rational value is known (every finite IEEE-754 double is a rational) is
    `.exact q`; a float produced by an operation whose rounding this model
    does not track is `.sym`.  Operations return `.exact` only when IEEE-754
    correct rounding guarantees the mathematical result is returned exactly
    (the result is representable); otherwise `.sym`.  Domain errors
    (`ZeroDivisionError` for `x / 0.0` etc.) are detected on `.exact`
    operands; a `.sym` operand is conservatively assumed not to trigger them.
    Float overflow and the value of `repr(float)` (shortest round-trip
    representation) are not modelled: conversions that go through `repr`
    produce symbolic results.  None of the claims depend on these untracked
    values.
  * Python `int` results (only produced by `Fraction // Fraction`, which
    returns a Python `int`) are represented by the exact rational of the same
    value; in every subsequent operation of this evaluator an `int` and a
    `Fraction` of equal value behave identically with respect to values and
    raised errors, so the distinction is not tracked.

Errors are modelled by the `Err` type, mirroring the exception classes that
can escape `eval_expr`: `EvalError` (the evaluator's own error class),
`ZeroDivisionError`, `decimal.DivisionByZero` (a `ZeroDivisionError`
subclass), `decimal.InvalidOperation`, `TypeError`, `ValueError`,
`IndexError`.
-/

namespace PyCalc

/-! Decimal numbers: finite values of Python's `decimal.Decimal`.
A finite decimal is `(-1)^sign * coeff * 10^exp`; the coefficient is not
normalised (`Decimal("1.00")` has coefficient 100 and exponent -2), exactly
as in `_pydecimal`.  Special values (NaN, infinities) never arise on the
paths the claims exercise and are not modelled. -/

/-- Finite Python `Decimal`: sign (true = negative), coefficient, exponent. -/
structure Dec where
  sign : Bool
  coeff : ℕ
  exp : ℤ
deriving DecidableEq, Repr

/-- Exact rational value of a finite decimal. -/
def Dec.valQ (d : Dec) : ℚ :=
  let m : ℚ :=
    if 0 ≤ d.exp then (d.coeff : ℚ) * (10 : ℚ) ^ d.exp.toNat
    else (d.coeff : ℚ) / (10 : ℚ) ^ (-d.exp).toNat
  if d.sign then -m else m

/-- Fuelled digit counter (fuel bounds the recursion depth; one call per
decimal digit). -/
def numDigitsAux : ℕ → ℕ → ℕ
  | 0, _ => 1
  | fuel + 1, n => if n < 10 then 1 else numDigitsAux fuel (n / 10) + 1

/-- Number of decimal digits of `n` (1 for 0), i.e. `len(str(coeff))` on a
Python coefficient. -/
def numDigits (n : ℕ) : ℕ := numDigitsAux n n

/-- Round a coefficient down by `drop` digits with ROUND_HALF_EVEN (the
default rounding of Python's decimal context). -/
def roundHalfEven (coeff drop : ℕ) : ℕ :=
  let p := 10 ^ drop
  let q := coeff / p
  let r := coeff % p
  if 2 * r > p ∨ (2 * r = p ∧ q % 2 = 1) then q + 1 else q

/-- Model of `_pydecimal`'s `_fix`: round a finite decimal to at most `prec`
significant digits (half-even).  For a nonzero finite decimal, `_fix` rounds
exactly when the coefficient has more than `prec` digits; the exponent limits
(`Emin`/`Emax`, overflow, subnormals) of the default context are never
reached by the claims' inputs and are not modelled. -/
def Dec.fix (prec : ℕ) (d : Dec) : Dec :=
  if d.coeff = 0 then d
  else
    let nd := numDigits d.coeff
    if nd ≤ prec then d
    else
      let drop := nd - prec
      let c := roundHalfEven d.coeff drop
      if c = 10 ^ prec then ⟨d.sign, 10 ^ (prec - 1), d.exp + drop + 1⟩
      else ⟨d.sign, c, d.exp + drop⟩

/-- Trailing-zero stripping loop of `_pydecimal.__truediv__`
(`while exp < ideal_exp and coeff % 10 == 0`); the fuel (the coefficient
itself) bounds the number of iterations. -/
def stripZeros : ℕ → ℕ → ℤ → ℤ → ℕ × ℤ
  | 0, c, e, _ => (c, e)
  | fuel + 1, c, e, ideal =>
    if e < ideal ∧ c % 10 = 0 ∧ c ≠ 0 then stripZeros fuel (c / 10) (e + 1) ideal
    else (c, e)

/-- Model of `_pydecimal.Decimal.__truediv__` on finite operands with a
nonzero divisor, at context precision `prec` (the zero-divisor errors are
raised by the caller).  Follows the reference implementation: scale the
dividend so the quotient has `prec + 1` digits, divide with remainder, make
an inexact quotient end in a digit that rounding can decide (`coeff += 1`
when divisible by 5), strip trailing zeros of an exact quotient down to the
ideal exponent, then `_fix`. -/
def decDivCore (prec : ℕ) (a b : Dec) : Dec :=
  let sign := xor a.sign b.sign
  if a.coeff = 0 then Dec.fix prec ⟨sign, 0, a.exp - b.exp⟩
  else
    let shift : ℤ := (numDigits b.coeff : ℤ) - (numDigits a.coeff : ℤ) + prec + 1
    let exp := a.exp - b.exp - shift
    let cr :=
      if 0 ≤ shift then (a.coeff * 10 ^ shift.toNat / b.coeff, a.coeff * 10 ^ shift.toNat % b.coeff)
      else (a.coeff / (b.coeff * 10 ^ (-shift).toNat), a.coeff % (b.coeff * 10 ^ (-shift).toNat))
    if cr.2 ≠ 0 then
      let c := if cr.1 % 5 = 0 then cr.1 + 1 else cr.1
      Dec.fix prec ⟨sign, c, exp⟩
    else
      let ce := stripZeros cr.1 cr.1 exp (a.exp - b.exp)
      Dec.fix prec ⟨sign, ce.1, ce.2⟩

/-- Signed integer coefficient of a decimal. -/
def Dec.sz (d : Dec) : ℤ := if d.sign then -(d.coeff : ℤ) else (d.coeff : ℤ)

/-- Decimal of a Python int (`Decimal(str(n))`): exact, exponent 0. -/
def decOfInt (n : ℤ) : Dec := ⟨decide (n < 0), n.natAbs, 0⟩

/-- Model of `_pydecimal.Decimal.__add__` at precision `prec`: the correctly
rounded exact sum.  A zero result takes the minimum operand exponent and (in
the default non-FLOOR rounding) positive sign; negative-zero sign subtleties
beyond this are not modelled. -/
def decAdd (prec : ℕ) (a b : Dec) : Dec :=
  let m := min a.exp b.exp
  let s := a.sz * 10 ^ (a.exp - m).toNat + b.sz * 10 ^ (b.exp - m).toNat
  if s = 0 then Dec.fix prec ⟨false, 0, m⟩
  else Dec.fix prec ⟨decide (s < 0), s.natAbs, m⟩

/-- Negated decimal without rounding (`copy_negate`), as used by `__sub__`. -/
def Dec.negate (d : Dec) : Dec := ⟨!d.sign, d.coeff, d.exp⟩

/-- Model of `Decimal.__sub__`: negate then add (as in `_pydecimal`). -/
def decSub (prec : ℕ) (a b : Dec) : Dec := decAdd prec a b.negate

/-- Model of `Decimal.__mul__`: exact product, then `_fix`. -/
def decMul (prec : ℕ) (a b : Dec) : Dec :=
  Dec.fix prec ⟨xor a.sign b.sign, a.coeff * b.coeff, a.exp + b.exp⟩

/-- Model of `Decimal.__neg__` (used for the unary `-` operator): negate,
with a zero becoming `+0`, then `_fix` under the active context. -/
def decNeg (prec : ℕ) (d : Dec) : Dec :=
  if d.coeff = 0 then Dec.fix prec ⟨false, 0, d.exp⟩
  else Dec.fix prec d.negate

/-! Errors: the exception classes that can escape `eval_expr`. -/

/-- Error raised during evaluation.  `evalError` is the evaluator's own
`EvalError` class (a `ValueError` subclass); the others are the Python
built-in / decimal exceptions that `_eval` lets propagate. -/
inductive Err
  | evalError (msg : String)
  | zeroDivision
  | decDivisionByZero
  | decInvalidOperation
  | typeError
  | valueError
  | indexError
deriving DecidableEq, Repr

/-- Membership in Python's `ZeroDivisionError` class: caught by the
`except ZeroDivisionError: raise` clause of the `BinOp` branch.
`decimal.DivisionByZero` is a subclass of `ZeroDivisionError`. -/
def Err.isZeroDivClass : Err → Bool
  | .zeroDivision => true
  | .decDivisionByZero => true
  | _ => false

/-- Stand-in for Python's `str(e)` on an exception, used by the float-mode
fallback `raise EvalError(str(e))`.  Only the fact that the result is a
string matters to the claims; the exact text is approximated. -/
def Err.pyStr : Err → String
  | .evalError m => m
  | .zeroDivision => "division by zero"
  | .decDivisionByZero => "[<class 'decimal.DivisionByZero'>]"
  | .decInvalidOperation => "[<class 'decimal.InvalidOperation'>]"
  | .typeError => "unsupported operand type(s)"
  | .valueError => "math domain error"
  | .indexError => "tuple index out of range"

/-! Integer divide / remainder / power on decimals
(`__floordiv__`, `__mod__`, `__pow__` with integral exponent). -/

/-- Model of `_pydecimal.Decimal._divide` (the common core of `//` and `%`)
on finite operands with nonzero divisor: the truncated integer quotient
(exponent 0, sign xor) and the remainder (sign of the dividend, ideal
exponent `min(e1, e2)`); `InvalidOperation` when the quotient needs more
than `prec` digits. -/
def decDivmod (prec : ℕ) (a b : Dec) : Except Err (Dec × Dec) :=
  let ideal := min a.exp b.exp
  let ia := a.coeff * 10 ^ (a.exp - ideal).toNat
  let ib := b.coeff * 10 ^ (b.exp - ideal).toNat
  let q := ia / ib
  let r := ia % ib
  if numDigits q > prec then .error .decInvalidOperation
  else .ok (⟨xor a.sign b.sign, q, 0⟩, Dec.fix prec ⟨a.sign, r, ideal⟩)

/-- Model of `Decimal ** int` (integral exponent, as produced by the
`a ** int(b)` fast path and by `**` on an integral decimal exponent):
correctly rounded exact power; `0 ** 0` is `InvalidOperation` and
`0 ** negative` is `DivisionByZero`, as in `_pydecimal`. -/
def decPowInt (prec : ℕ) (a : Dec) (e : ℤ) : Except Err Dec :=
  if a.coeff = 0 then
    if e = 0 then .error .decInvalidOperation
    else if e < 0 then .error .decDivisionByZero
    else .ok (Dec.fix prec ⟨a.sign ∧ e % 2 = 1, 0, a.exp * e⟩)
  else if 0 ≤ e then
    .ok (Dec.fix prec ⟨a.sign ∧ e % 2 = 1, a.coeff ^ e.toNat, a.exp * e⟩)
  else
    .ok (decDivCore prec ⟨false, 1, 0⟩
      ⟨a.sign ∧ (-e) % 2 = 1, a.coeff ^ (-e).toNat, a.exp * (-e)⟩)

/-! Floats, modelled symbolically. -/

/-- Python `float`: `.exact q` is a double whose exact rational value is `q`;
`.sym` is a double whose value this model does not track. -/
inductive PFloat
  | exact (q : ℚ)
  | sym
deriving DecidableEq, Repr

/-- Fuelled power-of-two test. -/
def isPow2Aux : ℕ → ℕ → Bool
  | 0, n => n = 1
  | fuel + 1, n => if n = 1 then true else if n % 2 = 0 ∧ n ≠ 0 then isPow2Aux fuel (n / 2) else false

/-- Power-of-two test on naturals. -/
def isPow2 (n : ℕ) : Bool := n ≠ 0 && isPow2Aux n n

/-- Conservative test that the rational `q` is exactly representable as an
IEEE-754 double: numerator below `2^53`, denominator a power of two within a
comfortably safe exponent range (far narrower than the true double range, so
that everything the test accepts really is representable).  Declaring fewer
rationals representable only makes more float results symbolic, never
wrong. -/
def representable (q : ℚ) : Bool :=
  q.num.natAbs < 2 ^ 53 && isPow2 q.den && q.den ≤ 2 ^ 200

/-- Conversion of an exact rational to a Python float (`float(x)` on an int,
`Fraction` or `Decimal` of that value): exact when representable (IEEE
correct rounding returns a representable value unchanged), otherwise the
rounded result is not tracked. -/
def floatOfQ (q : ℚ) : PFloat :=
  if representable q then .exact q else .sym

/-- Whether a float is (known to be) positive/negative zero. -/
def PFloat.isZero : PFloat → Bool
  | .exact q => q = 0
  | .sym => false

/-- Lift an exact rational binary operation to floats: the result is exact
precisely when both operands are exact and the mathematical result is
representable (IEEE-754 correct rounding then returns it exactly). -/
def pfBin (f : ℚ → ℚ → ℚ) : PFloat → PFloat → PFloat
  | .exact a, .exact b =>
    let r := f a b
    if representable r then .exact r else .sym
  | _, _ => .sym

/-- Negation of a float (always exact in IEEE-754). -/
def PFloat.neg : PFloat → PFloat
  | .exact q => .exact (-q)
  | .sym => .sym

/-- Absolute value of a float (always exact in IEEE-754). -/
def PFloat.abs : PFloat → PFloat
  | .exact q => .exact |q|
  | .sym => .sym

/-- Python `float ** float` (also used by `Fraction.__pow__`'s float
fallback and by `int ** negative int`): `x ** 0.0` is `1.0`;
`0.0 ** negative` raises `ZeroDivisionError`; all other results (including
the complex number Python returns for a negative base with fractional
exponent) are not tracked. -/
def pfPow : PFloat → PFloat → Except Err PFloat
  | a, .exact b =>
    if b = 0 then .ok (.exact 1)
    else
      match a with
      | .exact a0 => if a0 = 0 ∧ b < 0 then .error .zeroDivision else .ok .sym
      | .sym => .ok .sym
  | _, _ => .ok .sym

/-! Runtime values. -/

/-- A Python `Fraction` value: exact rational, or one whose value is not
tracked (it came from a symbolic float). -/
inductive FracV
  | exact (q : ℚ)
  | sym
deriving DecidableEq, Repr

/-- A Python `Decimal` value: a tracked finite decimal, or one whose digits
are not tracked (it came through `Decimal(repr(float))` or a bridged
transcendental function). -/
inductive DecV
  | exact (d : Dec)
  | sym
deriving DecidableEq, Repr

/-- A runtime value of the evaluator: a Python `float`, `Fraction` or
`Decimal` (a Python `int` is represented as a `Fraction` of the same value,
see the header comment). -/
inductive Value
  | float (f : PFloat)
  | frac (v : FracV)
  | dec (v : DecV)
deriving DecidableEq, Repr

/-- Exact rational value of a `Value`, when tracked. -/
def Value.exactQ : Value → Option ℚ
  | .float (.exact q) => some q
  | .frac (.exact q) => some q
  | .dec (.exact d) => some d.valQ
  | _ => none

/-! The source's conversion helpers `_to_fraction` and `_to_decimal`. -/

/-- Model of `_to_fraction` applied to a finite `Decimal`: the source folds
`tup.digits` into the integer `digits` (= the coefficient) and rebuilds
`Fraction(digits * 10**exp)` or `Fraction(digits, 10**-exp)`.  Note that
`tup.sign` is never read by the source, so the sign of the decimal is
dropped. -/
def toFractionOfDec (d : Dec) : ℚ :=
  if 0 ≤ d.exp then (d.coeff : ℚ) * (10 : ℚ) ^ d.exp.toNat
  else (d.coeff : ℚ) / (10 : ℚ) ^ (-d.exp).toNat

/-- Model of `_to_fraction` on a runtime value: `Fraction` unchanged,
`Decimal` via the digit reconstruction above, `float` via `Fraction(value)`
(exact on the float's actual value). -/
def toFractionV : Value → FracV
  | .frac v => v
  | .dec (.exact d) => .exact (toFractionOfDec d)
  | .dec .sym => .sym
  | .float (.exact q) => .exact q
  | .float .sym => .sym

/-- Model of `_to_decimal` applied to a `Fraction`:
`Decimal(numerator) / Decimal(denominator)`.  The division operator uses the
thread-local (global) context, whose precision is `G` — the `ctx` parameter
of `_to_decimal` is accepted but never used by the source. -/
def decOfFrac (G : ℕ) (q : ℚ) : Dec :=
  decDivCore G (decOfInt q.num) (decOfInt (q.den : ℤ))

/-- Model of `_to_decimal` on a runtime value: `Decimal` unchanged,
`Fraction` via numerator/denominator division at the global precision,
`float` via `Decimal(repr(value))` whose digits (shortest round-trip
representation) are not modelled. -/
def toDecimalV (G : ℕ) : Value → DecV
  | .dec v => v
  | .frac (.exact q) => .exact (decOfFrac G q)
  | .frac .sym => .sym
  | .float _ => .sym

/-- Model of Python `float(x)` on a runtime value (correctly rounded, hence
exact exactly on representable tracked values). -/
def toFloatV : Value → PFloat
  | .float f => f
  | .frac (.exact q) => floatOfQ q
  | .frac .sym => .sym
  | .dec (.exact d) => floatOfQ d.valQ
  | .dec .sym => .sym

/-- `FracV` to float, for the mixed `Fraction`/`float` operator paths. -/
def fracToFloat : FracV → PFloat
  | .exact q => floatOfQ q
  | .sym => .sym

/-! Binary operators.  `OPS` maps the seven supported AST operator nodes to
`operator.add/sub/mul/truediv/floordiv/mod/pow`; the remaining binary AST
operators exist in Python's grammar but are absent from `OPS`. -/

/-- Binary operator AST node kinds.  The first seven are the keys of `OPS`;
the rest parse but are rejected by the `op_type not in OPS` check. -/
inductive BOp
  | add | sub | mult | div | floorDiv | mod | pow
  | lshift | rshift | bitOr | bitXor | bitAnd | matMult
deriving DecidableEq, Repr

/-- Membership of the operator in the `OPS` table. -/
def BOp.supported : BOp → Bool
  | .add | .sub | .mult | .div | .floorDiv | .mod | .pow => true
  | _ => false

/-- Integer power on rationals (`Fraction ** int`, exact; the zero-base
negative-exponent error is checked by the callers). -/
def zpowQ (a : ℚ) (n : ℤ) : ℚ :=
  if 0 ≤ n then a ^ n.toNat else a⁻¹ ^ (-n).toNat

/-- Native operator on two `Fraction` operands (also covers the Python `int`
results represented as fractions).  `//` truncates toward minus infinity and
returns an integer value; `%` follows the divisor's sign; `**` with an
integral exponent is exact and with a non-integral exponent falls back to
`float(a) ** float(b)` (returning a float), exactly as
`fractions.Fraction.__pow__` does.  With an untracked operand the operator
cannot raise a detectable error and the result value is untracked. -/
def fracBin (op : BOp) (a b : FracV) : Except Err Value :=
  match a, b with
  | .exact x, .exact y =>
    match op with
    | .add => .ok (.frac (.exact (x + y)))
    | .sub => .ok (.frac (.exact (x - y)))
    | .mult => .ok (.frac (.exact (x * y)))
    | .div => if y = 0 then .error .zeroDivision else .ok (.frac (.exact (x / y)))
    | .floorDiv =>
      if y = 0 then .error .zeroDivision else .ok (.frac (.exact ((⌊x / y⌋ : ℤ) : ℚ)))
    | .mod =>
      if y = 0 then .error .zeroDivision else .ok (.frac (.exact (x - y * ⌊x / y⌋)))
    | .pow =>
      if y.den = 1 then
        if x = 0 ∧ y < 0 then .error .zeroDivision
        else .ok (.frac (.exact (zpowQ x y.num)))
      else (pfPow (floatOfQ x) (floatOfQ y)).map (fun f => .float f)
    | _ => .error .typeError
  | _, _ =>
    match op with
    | .lshift | .rshift | .bitOr | .bitXor | .bitAnd | .matMult => .error .typeError
    | _ => .ok (.frac .sym)

/-- Native operator on two float operands.  Division-family operators raise
`ZeroDivisionError` on a zero divisor; results are exact only when IEEE-754
correct rounding guarantees exactness. -/
def floatBin (op : BOp) (a b : PFloat) : Except Err Value :=
  match op with
  | .add => .ok (.float (pfBin (fun x y => x + y) a b))
  | .sub => .ok (.float (pfBin (fun x y => x - y) a b))
  | .mult => .ok (.float (pfBin (fun x y => x * y) a b))
  | .div => if b.isZero then .error .zeroDivision else .ok (.float (pfBin (fun x y => x / y) a b))
  | .floorDiv =>
    if b.isZero then .error .zeroDivision
    else .ok (.float (pfBin (fun x y => ((⌊x / y⌋ : ℤ) : ℚ)) a b))
  | .mod =>
    if b.isZero then .error .zeroDivision
    else .ok (.float (pfBin (fun x y => x - y * ⌊x / y⌋) a b))
  | .pow => (pfPow a b).map (fun f => .float f)
  | _ => .error .typeError

/-- Native operator on two `Decimal` operands, under the context of
precision `G` (the binary operators of `Decimal` use the thread-local
context).  `5 / 0` is `DivisionByZero`, `0 / 0` is `InvalidOperation`,
`x % 0` is `InvalidOperation`; `**` takes the exact integer path on an
integral exponent and otherwise bridges through `exp`/`ln` (untracked
digits), raising `InvalidOperation` on a negative base. -/
def decBin (G : ℕ) (op : BOp) (a b : DecV) : Except Err Value :=
  match a, b with
  | .exact x, .exact y =>
    match op with
    | .add => .ok (.dec (.exact (decAdd G x y)))
    | .sub => .ok (.dec (.exact (decSub G x y)))
    | .mult => .ok (.dec (.exact (decMul G x y)))
    | .div =>
      if y.coeff = 0 then
        if x.coeff = 0 then .error .decInvalidOperation else .error .decDivisionByZero
      else .ok (.dec (.exact (decDivCore G x y)))
    | .floorDiv =>
      if y.coeff = 0 then
        if x.coeff = 0 then .error .decInvalidOperation else .error .decDivisionByZero
      else (decDivmod G x y).map (fun qr => .dec (.exact qr.1))
    | .mod =>
      if y.coeff = 0 then .error .decInvalidOperation
      else (decDivmod G x y).map (fun qr => .dec (.exact qr.2))
    | .pow =>
      if (Dec.valQ y).den = 1 then
        (decPowInt G x (Dec.valQ y).num).map (fun d => .dec (.exact d))
      else if x.sign ∧ x.coeff ≠ 0 then .error .decInvalidOperation
      else .ok (.dec .sym)
    | _ => .error .typeError
  | _, _ =>
    match op with
    | .lshift | .rshift | .bitOr | .bitXor | .bitAnd | .matMult => .error .typeError
    | _ => .ok (.dec .sym)

/-- The native Python operator application `func(left, right)` of the
`BinOp` branch: dispatch on the runtime types of the operands.  Mixing a
`Decimal` with a `float` or a `Fraction` raises `TypeError` (these are the
incompatible-representation failures the coercion fallback exists for);
`Fraction`/`float` mixes convert the fraction to a float. -/
def natApply (G : ℕ) (op : BOp) : Value → Value → Except Err Value
  | .frac a, .frac b => fracBin op a b
  | .float a, .float b => floatBin op a b
  | .frac a, .float b => floatBin op (fracToFloat a) b
  | .float a, .frac b => floatBin op a (fracToFloat b)
  | .dec a, .dec b => decBin G op a b
  | _, _ => .error .typeError

/-! The evaluator. -/

/-- Evaluation mode (`eval_expr`'s `mode` argument; the string check
`mode not in ("float", "decimal", "fraction")` is subsumed by this closed
type). -/
inductive Mode
  | float | decimal | fraction
deriving DecidableEq, Repr

/-- Model of the `try: return func(left, right) / except ...` body of the
`BinOp` branch: a `ZeroDivisionError`-class error is re-raised unchanged; on
any other error the operator is retried exactly once on both operands
coerced into the active domain (`_to_decimal` / `_to_fraction`); in float
mode the error is wrapped as `EvalError(str(e))`. -/
def binOpStep (m : Mode) (G : ℕ) (op : BOp) (l r : Value) : Except Err Value :=
  match natApply G op l r with
  | .ok v => .ok v
  | .error e =>
    if e.isZeroDivClass then .error e
    else
      match m with
      | .decimal => natApply G op (.dec (toDecimalV G l)) (.dec (toDecimalV G r))
      | .fraction => natApply G op (.frac (toFractionV l)) (.frac (toFractionV r))
      | .float => .error (.evalError e.pyStr)

/-- Unary operator AST node kinds (`USub`/`UAdd` are in `OPS`; `Not` and
`Invert` parse but are rejected). -/
inductive UOp
  | uSub | uAdd | notOp | invert
deriving DecidableEq, Repr

/-- Membership of the unary operator in the `OPS` table. -/
def UOp.supported : UOp → Bool
  | .uSub | .uAdd => true
  | _ => false

/-- Application of a supported unary operator: `USub` is `operator.neg`
(rounding a `Decimal` under the active context), `UAdd` is the identity
lambda of `OPS` (not Python's `+x`, so no `Decimal` rounding). -/
def unaryApply (G : ℕ) : UOp → Value → Value
  | .uSub, .float f => .float f.neg
  | .uSub, .frac (.exact q) => .frac (.exact (-q))
  | .uSub, .frac .sym => .frac .sym
  | .uSub, .dec (.exact d) => .dec (.exact (decNeg G d))
  | .uSub, .dec .sym => .dec .sym
  | _, v => v

/-- Literal constants as carried by `ast.Constant` nodes.  `int`, `float`
and `bool` pass the `isinstance(node.value, (int, float))` check (Python's
`bool` is a subclass of `int`); strings, `None`, complex literals and the
like do not.  A `float` literal carries the exact rational value of the
IEEE-754 double the Python parser produced from the source text. -/
inductive PyConst
  | int (n : ℤ)
  | float (q : ℚ)
  | bool (b : Bool)
  | str (s : String)
  | noneLit
  | complexC
deriving DecidableEq, Repr

/-- The `Constant` branch of `_eval` composed with `convert_number`:
float mode uses `float(n)`; fraction mode uses `Fraction(n)` (exact on the
parsed double's value); decimal mode uses `_to_decimal(n, ctx)`, which is
`Decimal(str(n))` for an int (exact), `Decimal(repr(n))` for a float
(digits untracked), and `Decimal("True"/"False")` for a bool — which raises
`decimal.InvalidOperation`. -/
def evalConst (m : Mode) : PyConst → Except Err Value
  | .int n =>
    match m with
    | .float => .ok (.float (floatOfQ (n : ℚ)))
    | .fraction => .ok (.frac (.exact (n : ℚ)))
    | .decimal => .ok (.dec (.exact (decOfInt n)))
  | .float q =>
    match m with
    | .float => .ok (.float (.exact q))
    | .fraction => .ok (.frac (.exact q))
    | .decimal => .ok (.dec .sym)
  | .bool b =>
    match m with
    | .float => .ok (.float (.exact (if b then 1 else 0)))
    | .fraction => .ok (.frac (.exact (if b then 1 else 0)))
    | .decimal => .error .decInvalidOperation
  | _ => .error (.evalError "Nur Zahlen als Konstanten erlaubt")

/-- Exact rational value of the IEEE-754 double `math.pi`
(3.141592653589793…, the double closest to π). -/
def piDouble : ℚ := 884279719003555 / 281474976710656

/-- Exact rational value of the IEEE-754 double `math.e`
(2.718281828459045…, the double closest to e). -/
def eDouble : ℚ := 6121026514868073 / 2251799813685248

/-- Conversion of a `_CONSTS` entry (a float) into the active domain:
`float(val)` is the identity on a float; `Fraction(val)` is exact on the
double's value; `_to_decimal(val, ctx)` goes through `repr` (untracked
digits). -/
def constVal (m : Mode) (q : ℚ) : Value :=
  match m with
  | .float => .float (.exact q)
  | .fraction => .frac (.exact q)
  | .decimal => .dec .sym

/-- Model of `convert_const`: lookup in `_CONSTS = {"pi": math.pi,
"e": math.e}`, then domain conversion; unknown names raise `EvalError`. -/
def convert_const (m : Mode) (id : String) : Except Err Value :=
  if id = "pi" then .ok (constVal m piDouble)
  else if id = "e" then .ok (constVal m eDouble)
  else .error (.evalError ("Unbekannter Name: " ++ id))

/-- Membership in the `_MATH_FUNCS` whitelist, checked by `make_function`
before the arguments are evaluated. -/
def isMathFunc (s : String) : Bool :=
  s = "sin" || s = "cos" || s = "tan" || s = "log" || s = "ln" || s = "sqrt" ||
  s = "abs" || s = "max" || s = "min" || s = "pow"

/-- Python's `max` fold (`max` keeps the first maximal element; each later
element replaces the accumulator only when strictly greater). -/
def pyFold {α : Type} (gt : α → α → Bool) (h : α) (t : List α) : α :=
  t.foldl (fun acc x => if gt x acc then x else acc) h

/-- Strict greater-than on runtime values when both exact (Python numeric
comparison across `Decimal`, `Fraction` and `float` compares mathematical
values); comparisons with an untracked value are themselves untracked and
default to `false`. -/
def valGT (a b : Value) : Bool :=
  match a.exactQ, b.exactQ with
  | some x, some y => decide (y < x)
  | _, _ => false

/-- Strict greater-than / less-than on fraction values. -/
def fqGT : FracV → FracV → Bool
  | .exact x, .exact y => decide (y < x)
  | _, _ => false

/-- Strict less-than on fraction values. -/
def fqLT : FracV → FracV → Bool
  | .exact x, .exact y => decide (x < y)
  | _, _ => false

/-- Strict greater-than on floats. -/
def pfGT : PFloat → PFloat → Bool
  | .exact x, .exact y => decide (y < x)
  | _, _ => false

/-- Strict less-than on floats. -/
def pfLT : PFloat → PFloat → Bool
  | .exact x, .exact y => decide (x < y)
  | _, _ => false

/-- The `a ** int(b)` fast path of the registered `pow` in decimal mode,
applied to whatever runtime value `a` is. -/
def powIntOn (G : ℕ) (a : Value) (e : ℤ) : Except Err Value :=
  match a with
  | .dec (.exact d) => (decPowInt G d e).map (fun r => .dec (.exact r))
  | .dec .sym => .ok (.dec .sym)
  | .frac (.exact q) =>
    if q = 0 ∧ e < 0 then .error .zeroDivision else .ok (.frac (.exact (zpowQ q e)))
  | .frac .sym => .ok (.frac .sym)
  | .float f => (pfPow f (.exact (e : ℚ))).map (fun r => .float r)

/-- The decimal-mode bridge `_to_decimal(math.pow(float(a), float(b)), ctx)`:
`math.pow` raises `ValueError` on a negative base with non-integral exponent
and on a zero base with negative exponent; the bridged digits are
untracked. -/
def bridgePowDec (a b : Value) : Except Err Value :=
  match toFloatV a, toFloatV b with
  | .exact x, .exact y =>
    if (x < 0 ∧ y.den ≠ 1) ∨ (x = 0 ∧ y < 0) then .error .valueError
    else .ok (.dec .sym)
  | _, _ => .ok (.dec .sym)

/-- Float-mode `math.pow(x, y)`: `ValueError` on domain errors, `1.0` on a
zero exponent, otherwise an untracked float (`math.pow` is not guaranteed
correctly rounded). -/
def mathPow (x y : PFloat) : Except Err Value :=
  match x, y with
  | .exact qx, .exact qy =>
    if (qx < 0 ∧ qy.den ≠ 1) ∨ (qx = 0 ∧ qy < 0) then .error .valueError
    else if qy = 0 then .ok (.float (.exact 1)) else .ok (.float .sym)
  | _, .exact qy => if qy = 0 then .ok (.float (.exact 1)) else .ok (.float .sym)
  | _, _ => .ok (.float .sym)

/-- Float-mode one-argument `math.log` / the `ln` lambda: `ValueError` on a
non-positive argument. -/
def logCheck (x : PFloat) : Except Err Value :=
  match x with
  | .exact q => if q ≤ 0 then .error .valueError else .ok (.float .sym)
  | .sym => .ok (.float .sym)

/-- Model of the closure `wrapper(*args)` returned by `make_function`,
translated branch by branch in source order.  Fraction mode supports only
`abs`/`max`/`min`/`pow` and rejects the rest with `EvalError`; decimal mode
handles `sqrt` (via `ctx.sqrt`, the only use of the per-call precision `p`;
its correctly rounded digits are untracked here), `log`/`ln`, trig, `pow`,
`max`/`min` — where the source returns `max(args)` for BOTH names — and
falls through to the float bridge for `abs`; float mode calls the native
function on `float(...)`-converted arguments.  Arity errors reproduce
Python's: `IndexError` from `args[0]`, `ValueError` from 2-unpacking and
from `max`/`min` on an empty sequence, `TypeError` from native calls with
the wrong argument count (including `max(x)` on a single non-iterable
float). -/
def funcApply (m : Mode) (G p : ℕ) (name : String) (args : List Value) :
    Except Err Value :=
  match m with
  | .fraction =>
    if name = "abs" then
      match args with
      | [] => .error .indexError
      | a :: _ =>
        .ok (.frac (match toFractionV a with | .exact q => .exact |q| | .sym => .sym))
    else if name = "max" then
      match args.map toFractionV with
      | [] => .error .valueError
      | f :: fs => .ok (.frac (pyFold fqGT f fs))
    else if name = "min" then
      match args.map toFractionV with
      | [] => .error .valueError
      | f :: fs => .ok (.frac (pyFold fqLT f fs))
    else if name = "pow" then
      match args with
      | [a, b] =>
        match toFractionV b with
        | .exact e =>
          if e.den ≠ 1 then
            .error (.evalError "pow mit nicht-ganzzahligem Exponenten im Fraction-Modus nicht erlaubt")
          else
            match toFractionV a with
            | .exact base =>
              if base = 0 ∧ e < 0 then .error .zeroDivision
              else .ok (.frac (.exact (zpowQ base e.num)))
            | .sym => .ok (.frac .sym)
        | .sym =>
          .error (.evalError "pow mit nicht-ganzzahligem Exponenten im Fraction-Modus nicht erlaubt")
      | _ => .error .valueError
    else .error (.evalError ("Funktion " ++ name ++ " nicht im Fraction-Modus unterstützt"))
  | .decimal =>
    if name = "sqrt" then
      match args with
      | [] => .error .indexError
      | a :: _ =>
        match a.exactQ with
        | some x => if x < 0 then .error .valueError else .ok (.dec .sym)
        | Option.none => .ok (.dec .sym)
    else if name = "log" || name = "ln" then
      match args with
      | [] => .error .indexError
      | a :: _ =>
        match a.exactQ with
        | some x => if x ≤ 0 then .error .valueError else .ok (.dec .sym)
        | Option.none => .ok (.dec .sym)
    else if name = "sin" || name = "cos" || name = "tan" then
      match args with
      | [] => .error .indexError
      | _ :: _ => .ok (.dec .sym)
    else if name = "pow" then
      match args with
      | [a, b] =>
        match b with
        | .dec (.exact d) =>
          if (Dec.valQ d).den = 1 then powIntOn G a (Dec.valQ d).num
          else bridgePowDec a b
        | _ => bridgePowDec a b
      | _ => .error .valueError
    else if name = "max" || name = "min" then
      match args with
      | [] => .error .valueError
      | a :: rest => .ok (pyFold valGT a rest)
    else
      match args with
      | [] => .error .indexError
      | _ :: _ => .ok (.dec .sym)
  | .float =>
    let fs := args.map toFloatV
    if name = "sin" || name = "cos" || name = "tan" then
      match fs with
      | [_] => .ok (.float .sym)
      | _ => .error .typeError
    else if name = "log" then
      match fs with
      | [x] => logCheck x
      | [x, b] =>
        match x, b with
        | .exact qx, .exact qb =>
          if qx ≤ 0 ∨ qb ≤ 0 then .error .valueError
          else if qb = 1 then .error .zeroDivision
          else .ok (.float .sym)
        | .exact qx, .sym => if qx ≤ 0 then .error .valueError else .ok (.float .sym)
        | .sym, .exact qb =>
          if qb ≤ 0 then .error .valueError
          else if qb = 1 then .error .zeroDivision
          else .ok (.float .sym)
        | .sym, .sym => .ok (.float .sym)
      | _ => .error .typeError
    else if name = "ln" then
      match fs with
      | [x] => logCheck x
      | _ => .error .typeError
    else if name = "sqrt" then
      match fs with
      | [x] =>
        match x with
        | .exact q => if q < 0 then .error .valueError else .ok (.float .sym)
        | .sym => .ok (.float .sym)
      | _ => .error .typeError
    else if name = "abs" then
      match fs with
      | [x] => .ok (.float x.abs)
      | _ => .error .typeError
    else if name = "max" then
      match fs with
      | x :: y :: rest => .ok (.float (pyFold pfGT x (y :: rest)))
      | _ => .error .typeError
    else if name = "min" then
      match fs with
      | x :: y :: rest => .ok (.float (pyFold pfLT x (y :: rest)))
      | _ => .error .typeError
    else
      match fs with
      | [x, y] => mathPow x y
      | _ => .error .typeError

/-! The expression tree, as handed to `_eval` by `ast.parse(expr,
mode="eval").body`. -/

mutual

/-- Python expression AST nodes as seen by `_eval`.  `constant`, `name`,
`binOp`, `unaryOp` and `call` are the node kinds `_eval` has branches for
(a call's callee is itself an expression; the source demands it be a bare
`Name`).  Every other expression node kind that can appear in an
`ast.parse(..., mode="eval")` tree — `List`, `Tuple`, `Dict`, `Set`,
`Attribute`, `Subscript`, `Lambda`, `IfExp`, `Compare`, `BoolOp`,
`NamedExpr`, `JoinedStr`, comprehensions, `Starred`, `Await`, … — falls
through every `isinstance` test to the final
`raise EvalError("Ungültiger Ausdruck")` without any of its children being
visited, so those kinds are represented by `other` with the node kind's
name; their never-inspected children are not carried.  Keyword arguments of
a call (`node.keywords`) are silently ignored by the source and are not
carried either. -/
inductive PyExpr
  | constant (c : PyConst)
  | name (id : String)
  | binOp (op : BOp) (left right : PyExpr)
  | unaryOp (op : UOp) (operand : PyExpr)
  | call (callee : PyExpr) (args : PyArgs)
  | other (kind : String)

/-- Positional argument list of a call node. -/
inductive PyArgs
  | nil
  | cons (hd : PyExpr) (tl : PyArgs)

end

mutual

/-- Model of the recursive `_eval` of `eval_expr`, in source branch order:
constants are filtered and converted; a `BinOp` checks its operator against
`OPS` before evaluating the operands left-to-right and applying the
fallback-wrapped operator; a `UnaryOp` checks `OPS` then applies; a `Call`
requires a bare-`Name` callee, resolves it through `make_function` (which
raises on unknown names before any argument is evaluated), then evaluates
the arguments left-to-right and applies the wrapper; a bare `Name` is a
constant lookup; any other node kind raises `EvalError`.  `G` is the
precision of the process-wide default decimal context (28 unless the
process changed it); `p` is the per-call context precision, which reaches
only `ctx.sqrt`. -/
def _eval (m : Mode) (G p : ℕ) : PyExpr → Except Err Value
  | .constant c => evalConst m c
  | .binOp op l r =>
    if op.supported then
      match _eval m G p l with
      | .error e => .error e
      | .ok lv =>
        match _eval m G p r with
        | .error e => .error e
        | .ok rv => binOpStep m G op lv rv
    else .error (.evalError "Nicht unterstützter Operator")
  | .unaryOp op e =>
    if op.supported then
      match _eval m G p e with
      | .error er => .error er
      | .ok v => .ok (unaryApply G op v)
    else .error (.evalError "Nicht unterstützter Unary-Operator")
  | .call f args =>
    match f with
    | .name fname =>
      if isMathFunc fname then
        match _evalArgs m G p args with
        | .error e => .error e
        | .ok vs => funcApply m G p fname vs
      else .error (.evalError ("Unbekannte Funktion: " ++ fname))
    | _ => .error (.evalError "Nur einfache Funktionsaufrufe erlaubt")
  | .name id => convert_const m id
  | .other _ => .error (.evalError "Ungültiger Ausdruck")

/-- Left-to-right evaluation of a call's arguments
(`tuple(_eval(a) for a in node.args)`). -/
def _evalArgs (m : Mode) (G p : ℕ) : PyArgs → Except Err (List Value)
  | .nil => .ok []
  | .cons a rest =>
    match _eval m G p a with
    | .error e => .error e
    | .ok v =>
      match _evalArgs m G p rest with
      | .error e => .error e
      | .ok vs => .ok (v :: vs)

end

/-- Model of `eval_expr(expr, mode, precision)`.  The text-to-tree step
(`ast.parse(expr, mode="eval")`) is represented by its outcome: `none` when
the text does not parse as a single expression (then `eval_expr` raises
`EvalError("Syntaxfehler")`), `some tree` otherwise.  In decimal mode the
per-call context precision defaults to 28 when `precision` is `None`; the
global context precision `G` is a separate parameter because the source's
`Decimal` arithmetic operators use the thread-local context, not the
private `ctx`. -/
def eval_expr (tree : Option PyExpr) (m : Mode) (precision : Option ℕ) (G : ℕ) :
    Except Err Value :=
  let p := precision.getD 28
  match tree with
  | Option.none => .error (.evalError "Syntaxfehler")
  | some t => _eval m G p t

/-- Whether an evaluation outcome is a successful value. -/
def isOk {α : Type} : Except Err α → Bool
  | .ok _ => true
  | .error _ => false

/-- Constant kinds rejected by the `Constant` branch (`isinstance(node.value,
(int, float))` fails): strings, `None`, complex literals.  Booleans are NOT
rejected: Python's `bool` is a subclass of `int`. -/
def forbiddenConst : PyConst → Bool
  | .str _ => true
  | .noneLit => true
  | .complexC => true
  | _ => false

mutual

/-- Whether the tree contains a node of a kind outside the whitelisted
grammar: a non-numeric constant, a binary or unary operator missing from
`OPS`, a call whose callee is not a bare name, or any node kind `_eval` has
no branch for (collection literals, attribute access, subscripting, …). -/
def containsForbidden : PyExpr → Bool
  | .constant c => forbiddenConst c
  | .name _ => false
  | .binOp op l r => !op.supported || containsForbidden l || containsForbidden r
  | .unaryOp op e => !op.supported || containsForbidden e
  | .call f args =>
    (match f with | .name _ => false | _ => true) || containsForbiddenArgs args
  | .other _ => true

/-- Forbidden-node search through an argument list. -/
def containsForbiddenArgs : PyArgs → Bool
  | .nil => false
  | .cons a rest => containsForbidden a || containsForbiddenArgs rest

end

/-! The mode selector `auto_detect_mode`. -/

/-- Prefix test on character lists. -/
def startsWithL : List Char → List Char → Bool
  | [], _ => true
  | _ :: _, [] => false
  | a :: ns, b :: hs => a = b && startsWithL ns hs

/-- Substring containment (Python's `needle in haystack` on strings). -/
def hasSub (needle : List Char) : List Char → Bool
  | [] => startsWithL needle []
  | c :: rest => startsWithL needle (c :: rest) || hasSub needle rest

/-- Split a character list on `'/'` (Python's `expr.split("/")`). -/
def splitSlash : List Char → List Char → List (List Char)
  | [], acc => [acc.reverse]
  | c :: rest, acc =>
    if c = '/' then acc.reverse :: splitSlash rest [] else splitSlash rest (c :: acc)

/-- The `try: int(parts[0][-1]); int(parts[1][0]); return "fraction"`
probe: succeeds exactly when the character before the first `/` and the
character after it exist and are decimal digits (`int` on a single
character succeeds on digits; `IndexError` on an empty part is caught by
the bare `except`). -/
def slashProbe (e : List Char) : Bool :=
  match splitSlash e [] with
  | p0 :: p1 :: _ =>
    match p0.getLast?, p1.head? with
    | some c0, some c1 => c0.isDigit && c1.isDigit
    | _, _ => false
  | _ => false

/-- Model of `auto_detect_mode`, branch for branch: spaces are removed
first; a decimal point selects decimal; a transcendental-function name as a
substring selects decimal; a `/` (without any `//`) flanked by digits
selects fraction; text of digits, arithmetic operators and parentheses only
selects fraction; anything else selects float. -/
def auto_detect_mode (s : String) : String :=
  let e := s.toList.filter (fun c => c ≠ ' ')
  if e.contains '.' then "decimal"
  else if hasSub "sin".toList e || hasSub "cos".toList e || hasSub "tan".toList e ||
      hasSub "log".toList e || hasSub "ln".toList e || hasSub "sqrt".toList e then "decimal"
  else if e.contains '/' && !hasSub "//".toList e && slashProbe e then "fraction"
  else if e.all (fun c => c.isDigit || c = '+' || c = '-' || c = '*' || c = '/' ||
      c = '(' || c = ')' || c = ' ') then "fraction"
  else "float"

/-! Concrete expression trees used by the claims (each is the tree
`ast.parse(text, mode="eval").body` produces for the quoted source text). -/

/-- Tree of `"5/0"`. -/
def tree_5_div_0 : PyExpr := .binOp .div (.constant (.int 5)) (.constant (.int 0))

/-- Tree of `"1/3"`. -/
def tree_1_div_3 : PyExpr := .binOp .div (.constant (.int 1)) (.constant (.int 3))

/-- Tree of `"2**10"`. -/
def tree_2_pow_10 : PyExpr := .binOp .pow (.constant (.int 2)) (.constant (.int 10))

/-- Tree of `"2**0.5"`: the literal `0.5` is parsed to the double whose
exact value is 1/2 (0.5 is exactly representable). -/
def tree_2_pow_half : PyExpr := .binOp .pow (.constant (.int 2)) (.constant (.float (1/2)))

/-- Tree of `"pow(2, 0.5)"`. -/
def tree_pow_call_half : PyExpr :=
  .call (.name "pow") (.cons (.constant (.int 2)) (.cons (.constant (.float (1/2))) .nil))

/-- Tree of `"min(1, 2)"`. -/
def tree_min_1_2 : PyExpr :=
  .call (.name "min") (.cons (.constant (.int 1)) (.cons (.constant (.int 2)) .nil))

/-- Tree of `"max(1, 2)"`. -/
def tree_max_1_2 : PyExpr :=
  .call (.name "max") (.cons (.constant (.int 1)) (.cons (.constant (.int 2)) .nil))

/-- Exact rational value of the IEEE-754 double the Python parser produces
for the source literal `0.1` (the double nearest 1/10 is
`3602879701896397 * 2^-55`). -/
def pointOneDouble : ℚ := 3602879701896397 / 36028797018963968

/-! Claim C1.  The rejection property is proved by mutual structural
induction over the tree: a tree containing any forbidden node kind never
evaluates to a value. -/

mutual

/-- Helper for C1: a tree containing a forbidden node never evaluates
successfully, in any mode, under any precisions. -/
theorem noOk_of_forbidden (m : Mode) (G p : ℕ) :
    ∀ t : PyExpr, containsForbidden t = true → isOk (_eval m G p t) = false
  | .constant c, h => by
    cases c <;> simp_all [containsForbidden, forbiddenConst] <;> rfl
  | .name _, h => by simp [containsForbidden] at h
  | .binOp op l r, h => by
    have hd : _eval m G p (.binOp op l r) =
        (if op.supported then
          match _eval m G p l with
          | .error e => .error e
          | .ok lv =>
            match _eval m G p r with
            | .error e => .error e
            | .ok rv => binOpStep m G op lv rv
        else .error (.evalError "Nicht unterstützter Operator")) := rfl
    rw [hd]
    by_cases hop : op.supported = true
    · have h' : containsForbidden l = true ∨ containsForbidden r = true := by
        have hh : (!op.supported || containsForbidden l || containsForbidden r) = true := h
        rw [hop] at hh
        simpa using hh
      rw [if_pos hop]
      cases hl : _eval m G p l with
      | error e => rfl
      | ok lv =>
        cases hr : _eval m G p r with
        | error e => rfl
        | ok rv =>
          rcases h' with hfl | hfr
          · have hcontra := noOk_of_forbidden m G p l hfl
            rw [hl] at hcontra
            exact absurd hcontra (by simp [isOk])
          · have hcontra := noOk_of_forbidden m G p r hfr
            rw [hr] at hcontra
            exact absurd hcontra (by simp [isOk])
    · rw [if_neg hop]
      rfl
  | .unaryOp op e, h => by
    have hd : _eval m G p (.unaryOp op e) =
        (if op.supported then
          match _eval m G p e with
          | .error er => .error er
          | .ok v => .ok (unaryApply G op v)
        else .error (.evalError "Nicht unterstützter Unary-Operator")) := rfl
    rw [hd]
    by_cases hop : op.supported = true
    · have hf : containsForbidden e = true := by
        have hh : (!op.supported || containsForbidden e) = true := h
        rw [hop] at hh
        simpa using hh
      rw [if_pos hop]
      cases he : _eval m G p e with
      | error er => rfl
      | ok v =>
        have hcontra := noOk_of_forbidden m G p e hf
        rw [he] at hcontra
        exact absurd hcontra (by simp [isOk])
    · rw [if_neg hop]
      rfl
  | .call f args, h => by
    cases f with
    | name fname =>
      have hargs : containsForbiddenArgs args = true := by
        have hh : ((match PyExpr.name fname with
            | PyExpr.name _ => false
            | _ => true) || containsForbiddenArgs args) = true := h
        simpa using hh
      have hd : _eval m G p (.call (.name fname) args) =
          (if isMathFunc fname then
            match _evalArgs m G p args with
            | .error e => .error e
            | .ok vs => funcApply m G p fname vs
          else .error (.evalError ("Unbekannte Funktion: " ++ fname))) := rfl
      rw [hd]
      by_cases hmf : isMathFunc fname = true
      · rw [if_pos hmf]
        cases ha : _evalArgs m G p args with
        | error e => rfl
        | ok vs =>
          have hcontra := noOkArgs_of_forbidden m G p args hargs
          rw [ha] at hcontra
          exact absurd hcontra (by simp [isOk])
      · rw [if_neg hmf]
        rfl
    | constant c => rfl
    | binOp op l r => rfl
    | unaryOp op e => rfl
    | call f2 args2 => rfl
    | other k => rfl
  | .other _, _ => rfl

/-- Helper for C1: an argument list containing a forbidden node never
evaluates successfully. -/
theorem noOkArgs_of_forbidden (m : Mode) (G p : ℕ) :
    ∀ args : PyArgs, containsForbiddenArgs args = true → isOk (_evalArgs m G p args) = false
  | .nil, h => by simp [containsForbiddenArgs] at h
  | .cons a rest, h => by
    have h' : containsForbidden a = true ∨ containsForbiddenArgs rest = true := by
      have hh : (containsForbidden a || containsForbiddenArgs rest) = true := h
      simpa using hh
    have hd : _evalArgs m G p (.cons a rest) =
        (match _eval m G p a with
        | .error e => .error e
        | .ok v =>
          match _evalArgs m G p rest with
          | .error e => .error e
          | .ok vs => .ok (v :: vs)) := rfl
    rw [hd]
    cases ha : _eval m G p a with
    | error e => rfl
    | ok v =>
      cases hrest : _evalArgs m G p rest with
      | error e => rfl
      | ok vs =>
        rcases h' with hfa | hfr
        · have hcontra := noOk_of_forbidden m G p a hfa
          rw [ha] at hcontra
          exact absurd hcontra (by simp [isOk])
        · have hcontra := noOkArgs_of_forbidden m G p rest hfr
          rw [hrest] at hcontra
          exact absurd hcontra (by simp [isOk])

end

/-- C1 (amended): every tree containing a forbidden node kind — a
string/None/complex constant, a collection literal, attribute access,
subscripting, a computed callee, an operator outside `OPS`, or any other
node kind `_eval` has no branch for (this covers `"__import__('os')"`,
whose argument is a string literal, and `"[1,2,3]"`) — fails to evaluate in
every mode, and text that does not parse as a single expression (such as
`"a=1"`) fails with `EvalError("Syntaxfehler")`.  The amendment: boolean
literals are NOT rejected (see the counterexample), because Python's `bool`
is a subclass of `int` and passes the numeric-literal check. -/
theorem C1_forbidden_rejected :
    (∀ (t : PyExpr) (m : Mode) (prec : Option ℕ) (G : ℕ),
        containsForbidden t = true → isOk (eval_expr (some t) m prec G) = false)
    ∧ (∀ (m : Mode) (prec : Option ℕ) (G : ℕ),
        eval_expr Option.none m prec G = .error (.evalError "Syntaxfehler")) := by
  constructor
  · intro t m prec G h
    exact noOk_of_forbidden m G (prec.getD 28) t h
  · intro m prec G
    rfl

/-- C1 witness: the rejection statement applied to the list literal
`"[1,2,3]"` in float mode. -/
theorem C1_witness :
    containsForbidden (PyExpr.other "List") = true
    ∧ isOk (eval_expr (some (PyExpr.other "List")) Mode.float Option.none 28) = false :=
  ⟨rfl, C1_forbidden_rejected.1 (PyExpr.other "List") Mode.float Option.none 28 rfl⟩

/-- C1 counterexample: the text `"True"` is not a pure arithmetic expression
of the whitelisted grammar (the spec's grammar admits only numeric literals,
`pi`/`e`, operators, grouping and whitelisted calls, and explicitly rejects
boolean literals), yet `eval_expr` does not reject it: in float mode it
evaluates to the float 1.0, because `isinstance(True, int)` holds in
Python. -/
theorem C1_counterexample :
    eval_expr (some (.constant (.bool true))) Mode.float Option.none 28
        = .ok (.float (.exact 1))
    ∧ isOk (eval_expr (some (.constant (.bool true))) Mode.float Option.none 28) = true := by
  refine ⟨by with_unfolding_all rfl, by with_unfolding_all rfl⟩

/-! Claim C2. -/

/-- C2: evaluating `"5/0"` fails with a `ZeroDivisionError`-class error in
every mode — `ZeroDivisionError` itself for float and fraction,
`decimal.DivisionByZero` (a `ZeroDivisionError` subclass) for decimal —
each distinct from the evaluator's generic `EvalError`; and structurally,
the `BinOp` fallback re-raises any `ZeroDivisionError`-class native error
unchanged in every mode, never swallowing or retrying it. -/
theorem C2_division_by_zero :
    eval_expr (some tree_5_div_0) Mode.float Option.none 28 = .error .zeroDivision
    ∧ eval_expr (some tree_5_div_0) Mode.decimal Option.none 28 = .error .decDivisionByZero
    ∧ eval_expr (some tree_5_div_0) Mode.fraction Option.none 28 = .error .zeroDivision
    ∧ Err.zeroDivision.isZeroDivClass = true
    ∧ Err.decDivisionByZero.isZeroDivClass = true
    ∧ (∀ msg, Err.zeroDivision ≠ Err.evalError msg ∧ Err.decDivisionByZero ≠ Err.evalError msg)
    ∧ (∀ (m : Mode) (G : ℕ) (op : BOp) (l r : Value) (e : Err),
        natApply G op l r = .error e → e.isZeroDivClass = true →
          binOpStep m G op l r = .error e) := by
  refine ⟨by with_unfolding_all rfl, by with_unfolding_all rfl, by with_unfolding_all rfl,
    rfl, rfl, ?_, ?_⟩
  · intro msg
    exact ⟨fun h => Err.noConfusion h, fun h => Err.noConfusion h⟩
  · intro m G op l r e h hz
    simp [binOpStep, h, hz]

/-- C2 witness: the structural no-swallow statement applied to the division
`Fraction(5) / Fraction(0)`, whose native error is a `ZeroDivisionError`. -/
theorem C2_witness :
    natApply 28 BOp.div (Value.frac (.exact 5)) (Value.frac (.exact 0)) = .error .zeroDivision
    ∧ binOpStep Mode.fraction 28 BOp.div (Value.frac (.exact 5)) (Value.frac (.exact 0))
        = .error .zeroDivision := by
  refine ⟨by with_unfolding_all rfl, ?_⟩
  exact C2_division_by_zero.2.2.2.2.2.2 Mode.fraction 28 BOp.div
    (Value.frac (.exact 5)) (Value.frac (.exact 0)) Err.zeroDivision
    (by with_unfolding_all rfl) rfl

/-! Claim C3. -/

/-- C3 counterexample: in fraction mode, `"2**0.5"` does NOT fail with the
non-integer-exponent error — it evaluates successfully, returning the float
`Fraction.__pow__` falls back to (`float(2) ** float(0.5)`). -/
theorem C3_counterexample :
    eval_expr (some tree_2_pow_half) Mode.fraction Option.none 28 = .ok (.float .sym) := by
  with_unfolding_all rfl

/-- C3 (amended): in fraction mode `"2**10"` returns the exact value 1024,
but the inline `**` operator does NOT follow the registered `pow` function's
exactness rules: `"2**0.5"` succeeds with a binary float approximation
(Python's `Fraction.__pow__` silently falls back to float power on a
non-integral exponent), while only the registered function call
`"pow(2, 0.5)"` fails with the non-integer-exponent `EvalError`. -/
theorem C3_pow_amended :
    eval_expr (some tree_2_pow_10) Mode.fraction Option.none 28 = .ok (.frac (.exact 1024))
    ∧ eval_expr (some tree_2_pow_half) Mode.fraction Option.none 28 = .ok (.float .sym)
    ∧ eval_expr (some tree_pow_call_half) Mode.fraction Option.none 28
        = .error (.evalError
            "pow mit nicht-ganzzahligem Exponenten im Fraction-Modus nicht erlaubt") := by
  refine ⟨?_, ?_, ?_⟩ <;> with_unfolding_all rfl

/-! Claim C4. -/

/-- C4 counterexample: in fraction mode the literal `0.1` does NOT become
1/10 — the Python parser has already rounded the literal to the nearest
IEEE-754 double, and `Fraction(0.1)` is the exact value of that double,
3602879701896397/36028797018963968 ≠ 1/10. -/
theorem C4_counterexample :
    eval_expr (some (.constant (.float pointOneDouble))) Mode.fraction Option.none 28
        = .ok (.frac (.exact pointOneDouble))
    ∧ pointOneDouble ≠ (1 : ℚ)/10 := by
  refine ⟨by with_unfolding_all rfl, by with_unfolding_all decide⟩

/-- C4 (amended): in fraction mode an integer literal converts to the exact
rational it denotes, and a decimal-point literal converts to the exact
rational value of the IEEE-754 double the parser produced from it (a binary
approximation of the decimal digits, not the decimal fraction itself). -/
theorem C4_literal_conversion :
    (∀ (n : ℤ) (prec : Option ℕ) (G : ℕ),
        eval_expr (some (.constant (.int n))) Mode.fraction prec G = .ok (.frac (.exact (n : ℚ))))
    ∧ (∀ (q : ℚ) (prec : Option ℕ) (G : ℕ),
        eval_expr (some (.constant (.float q))) Mode.fraction prec G = .ok (.frac (.exact q))) :=
  ⟨fun _ _ _ => rfl, fun _ _ _ => rfl⟩

/-- C4 witness: the amended statement evaluated at the integer literal `7`
and at the double of the literal `0.1`. -/
theorem C4_witness :
    eval_expr (some (.constant (.int 7))) Mode.fraction Option.none 28
        = .ok (.frac (.exact (7 : ℚ)))
    ∧ eval_expr (some (.constant (.float pointOneDouble))) Mode.fraction Option.none 28
        = .ok (.frac (.exact pointOneDouble)) :=
  ⟨C4_literal_conversion.1 7 Option.none 28, C4_literal_conversion.2 pointOneDouble Option.none 28⟩

/-! Claim C5. -/

/-- C5 counterexample: `auto_detect_mode "2+2"` returns `"fraction"` (by the
digits-and-operators rule), not `"float"` as the claim's example states. -/
theorem C5_counterexample :
    auto_detect_mode "2+2" = "fraction" ∧ auto_detect_mode "2+2" ≠ "float" := by
  refine ⟨by with_unfolding_all rfl, by with_unfolding_all decide⟩

/-- C5 (amended): the mode selector's first-match-wins heuristics give
`"3.14" ↦ decimal` and `"1/2" ↦ fraction` as the claim states, but
`"2+2" ↦ fraction` (its rule 4: digits, arithmetic operators, parentheses
and spaces only), not float; an input matching no rule, such as `"pi"`,
gives float. -/
theorem C5_examples :
    auto_detect_mode "3.14" = "decimal"
    ∧ auto_detect_mode "1/2" = "fraction"
    ∧ auto_detect_mode "2+2" = "fraction"
    ∧ auto_detect_mode "pi" = "float" := by
  refine ⟨?_, ?_, ?_, ?_⟩ <;> with_unfolding_all rfl

/-! Claim C6. -/

/-- C6: in decimal mode, `"min(1, 2)"` evaluates to the Decimal 2 — the
maximum — because the decimal branch of the function wrapper returns
`max(args)` for BOTH `max` and `min`; `"max(1, 2)"` gives the same 2. -/
theorem C6_min_is_max :
    eval_expr (some tree_min_1_2) Mode.decimal (some 28) 28 = .ok (.dec (.exact ⟨false, 2, 0⟩))
    ∧ eval_expr (some tree_max_1_2) Mode.decimal (some 28) 28 = .ok (.dec (.exact ⟨false, 2, 0⟩))
    ∧ Dec.valQ ⟨false, 2, 0⟩ = 2 := by
  refine ⟨by with_unfolding_all rfl, by with_unfolding_all rfl, by with_unfolding_all decide⟩

/-! Claim C7. -/

/-- C7: `_to_fraction` applied to the Decimal −1.5 (sign 1, digits (1,5),
exponent −1) returns +3/2, not −3/2: the source never reads `tup.sign`, so
the conversion is NOT exact on negative decimals; it is exact on every
nonnegative finite decimal. -/
theorem C7_to_fraction_sign :
    toFractionOfDec ⟨true, 15, -1⟩ = (3 : ℚ)/2
    ∧ Dec.valQ ⟨true, 15, -1⟩ = -((3 : ℚ)/2)
    ∧ toFractionOfDec ⟨true, 15, -1⟩ ≠ Dec.valQ ⟨true, 15, -1⟩
    ∧ (∀ d : Dec, d.sign = false → toFractionOfDec d = d.valQ) := by
  refine ⟨by with_unfolding_all rfl, by with_unfolding_all rfl, by with_unfolding_all decide, ?_⟩
  intro d h
  simp [toFractionOfDec, Dec.valQ, h]

/-- C7 witness: exactness of the conversion on the nonnegative decimal
+1.5. -/
theorem C7_witness :
    toFractionOfDec ⟨false, 15, -1⟩ = Dec.valQ ⟨false, 15, -1⟩ :=
  C7_to_fraction_sign.2.2.2 ⟨false, 15, -1⟩ rfl

/-! Claim C8. -/

/-- C8: `evaluate("1/3", "decimal", prec)` returns the 28-significant-digit
approximation 0.3333333333333333333333333333 for EVERY per-call precision
`prec` — the result is governed by the process-wide default context
(precision 28), because the private context built from `prec` is never used
by the arithmetic operators; a context that actually used precision 5 would
give the 5-digit 0.33333 instead. -/
theorem C8_precision_unused :
    (∀ prec : Option ℕ,
        eval_expr (some tree_1_div_3) Mode.decimal prec 28
          = .ok (.dec (.exact ⟨false, 3333333333333333333333333333, -28⟩)))
    ∧ numDigits 3333333333333333333333333333 = 28
    ∧ decDivCore 5 (decOfInt 1) (decOfInt 3) = ⟨false, 33333, -5⟩
    ∧ (⟨false, 3333333333333333333333333333, -28⟩ : Dec) ≠ ⟨false, 33333, -5⟩ := by
  refine ⟨?_, by with_unfolding_all rfl, by with_unfolding_all rfl, by with_unfolding_all decide⟩
  intro prec
  with_unfolding_all rfl

/-- C8 witness: the statement applied at the claim's failing per-call
precision 5. -/
theorem C8_witness :
    eval_expr (some tree_1_div_3) Mode.decimal (some 5) 28
      = .ok (.dec (.exact ⟨false, 3333333333333333333333333333, -28⟩)) :=
  C8_precision_unused.1 (some 5)

/-! Claim C9. -/

/-- C9: whenever the native operator application fails with an error outside
the `ZeroDivisionError` class, the decimal and fraction modes coerce both
operands into the domain's canonical type (`_to_decimal` / `_to_fraction`)
and retry the operator exactly once — the retry's outcome, success or
failure, is final — while float mode wraps the original error as an
`EvalError` with no retry. -/
theorem C9_coercion_retry :
    ∀ (G : ℕ) (op : BOp) (l r : Value) (e : Err),
      natApply G op l r = .error e → e.isZeroDivClass = false →
        binOpStep Mode.decimal G op l r
            = natApply G op (.dec (toDecimalV G l)) (.dec (toDecimalV G r))
        ∧ binOpStep Mode.fraction G op l r
            = natApply G op (.frac (toFractionV l)) (.frac (toFractionV r))
        ∧ binOpStep Mode.float G op l r = .error (.evalError e.pyStr) := by
  intro G op l r e h hz
  refine ⟨?_, ?_, ?_⟩ <;> simp [binOpStep, h, hz]

/-- C9 witness: `Decimal(0) ** Decimal(0)` natively raises
`InvalidOperation` (not a `ZeroDivisionError`); the decimal-mode step
retries on the coerced operands — the same decimals — and the retry's
`InvalidOperation` is final. -/
theorem C9_witness :
    natApply 28 BOp.pow (Value.dec (.exact ⟨false, 0, 0⟩)) (Value.dec (.exact ⟨false, 0, 0⟩))
        = .error .decInvalidOperation
    ∧ binOpStep Mode.decimal 28 BOp.pow (Value.dec (.exact ⟨false, 0, 0⟩))
        (Value.dec (.exact ⟨false, 0, 0⟩)) = .error .decInvalidOperation := by
  refine ⟨by with_unfolding_all rfl, ?_⟩
  have h := (C9_coercion_retry 28 BOp.pow (Value.dec (.exact ⟨false, 0, 0⟩))
    (Value.dec (.exact ⟨false, 0, 0⟩)) Err.decInvalidOperation
    (by with_unfolding_all rfl) rfl).1
  exact h.trans (by with_unfolding_all rfl)

/-! Claim C10. -/

/-- C10: in fraction mode the bare constants `"pi"` and `"e"` evaluate
successfully (they are not narrowed away like the transcendental functions)
to the exact rational value of the IEEE-754 double approximations `math.pi`
and `math.e` — rationals that differ from the true constants π and e. -/
theorem C10_constants_in_fraction_mode :
    eval_expr (some (.name "pi")) Mode.fraction Option.none 28 = .ok (.frac (.exact piDouble))
    ∧ eval_expr (some (.name "e")) Mode.fraction Option.none 28 = .ok (.frac (.exact eDouble))
    ∧ ((piDouble : ℝ) ≠ Real.pi)
    ∧ ((eDouble : ℝ) ≠ Real.exp 1) := by
  refine ⟨by with_unfolding_all rfl, by with_unfolding_all rfl, ?_, ?_⟩
  · intro h
    exact irrational_pi ⟨piDouble, h⟩
  · intro h
    have h20 := Real.exp_one_near_20
    rw [← h] at h20
    have h1 := (abs_le.mp h20).1
    rw [eDouble] at h1
    norm_num at h1

end PyCalc
